import Mathlib

/-!
# Verification of the optimization-engine core against its specification

Shallow embedding of the three staged source files of the repository:
`src/alm/alm_optimizer.rs`, `src/lipschitz_estimator.rs` and
`src/core/fbs/fbs_optimizer.rs`.  `f64` values are modelled as real numbers;
fallible oracles return `Except`.  Collaborator types that these files use but
that are declared elsewhere in the repository (the ALM cache layout, the PANOC
cache, the PANOC inner solver, `matrix_operations`, the FBS engine) are
modelled from the specification and carry a `Modelled from the spec:` note.
-/

namespace OpEn

/-- Modelled from the spec: the flat error taxonomy of §7
(`CostGradientEval`, `Cost`, `Constraint`, `Other`); `SolverError` itself is
declared outside the staged sources. -/
inductive SolverError where
  | costGradientEval
  | cost
  | constraintEval
  | other

/-- Modelled from the spec: the status an inner/FBS solve reports (§4.2):
converged flag, iteration count, terminal fixed-point-residual norm and
terminal cost value.  Wall-clock time is outside the model. -/
structure SolverStatus where
  has_converged : Bool
  num_iter : Nat
  norm_fpr : ℝ
  cost_value : ℝ

/-- Modelled from the spec: `matrix_operations::norm2_squared_diff a b`,
the squared Euclidean distance `Σ (aᵢ − bᵢ)²` used for the ALM infeasibility
(§4.4.1 step 4: `δy_norm⁺ = sqrt(Σ(y⁺ᵢ − yᵢ)²)`). -/
def norm2_squared_diff (a b : List ℝ) : ℝ :=
  ((a.zip b).map fun p => (p.1 - p.2) ^ 2).sum

/-- Modelled from the spec: `matrix_operations::norm2`, the Euclidean norm
`‖v‖₂`. -/
noncomputable def norm2 (v : List ℝ) : ℝ :=
  Real.sqrt ((v.map fun x => x ^ 2).sum)

/-- Modelled from the spec: the embedded inner-solver cache.  The outer driver
reads and writes only its AKKT tolerance (§3: the inner-solver cache carries
"at minimum: current AKKT tolerance `ε_inner`, an L-BFGS memory, and reset
hooks"); only the tolerance is modelled, the L-BFGS memory is not observable
through the staged sources. -/
structure PANOCCache where
  akkt_tolerance : Option ℝ

/-- `PANOCCache::set_akkt_tolerance` (declared outside the staged sources;
modelled from the spec §4.2: the AKKT tolerance is "set on its cache before
`solve`"). -/
def PANOCCache.set_akkt_tolerance (c : PANOCCache) (tol : ℝ) : PANOCCache :=
  { c with akkt_tolerance := some tol }

/-- Modelled from the spec: `PANOCCache::reset` "clears internal
L-BFGS/linesearch state but preserves `ε_inner`" (§4.2); on the modelled
fields it is the identity. -/
def PANOCCache.reset (c : PANOCCache) : PANOCCache := c

/-- Modelled from the spec: the ALM cache (§3, "Outer state"), with exactly
the fields `alm_optimizer.rs` reads and writes; `AlmCache` itself is declared
outside the staged sources.  `xi`, when present, is `[c, y₁, …, y_{n1}]` of
length `1 + n1`. -/
structure AlmCache where
  panoc_cache : PANOCCache
  xi : Option (List ℝ)
  y_plus : Option (List ℝ)
  w_alm_aux : Option (List ℝ)
  w_pm : Option (List ℝ)
  delta_y_norm : ℝ
  delta_y_norm_plus : ℝ
  f2_norm : ℝ
  f2_norm_plus : ℝ
  iteration : Nat

/-- The ALM problem bundle (`AlmProblem` is declared outside the staged
sources; fields modelled from the spec §3/§6 and from the uses in
`alm_optimizer.rs`).  Set projections are in-place vector maps, modelled as
functions on vectors; oracles report success or an error kind. -/
structure AlmProblem where
  constraints : List ℝ → List ℝ
  alm_set_c : Option (List ℝ → List ℝ)
  alm_set_y : Option (List ℝ → List ℝ)
  parametric_cost : List ℝ → List ℝ → Except SolverError ℝ
  parametric_gradient : List ℝ → List ℝ → Except SolverError (List ℝ)
  mapping_f1 : Option (List ℝ → Except SolverError (List ℝ))
  mapping_f2 : Option (List ℝ → Except SolverError (List ℝ))
  n1 : Nat
  n2 : Nat

/-- Modelled from the spec: the PANOC-class inner solver (§4.2), which is
constructed inline by `solve_inner_problem` but declared outside the staged
sources.  It is abstracted as an oracle that takes the projection of the set
`U`, the composite cost ψ, its gradient ∇ψ, the inner cache and the iterate,
and returns the refined iterate, the updated inner cache and a status — or
propagates an oracle-evaluation error. -/
def InnerSolver : Type :=
  (List ℝ → List ℝ) → (List ℝ → Except SolverError ℝ) →
    (List ℝ → Except SolverError (List ℝ)) → PANOCCache → List ℝ →
    Except SolverError (List ℝ × PANOCCache × SolverStatus)

def DEFAULT_MAX_OUTER_ITERATIONS : Nat := 50

def DEFAULT_MAX_INNER_ITERATIONS : Nat := 5000

noncomputable def DEFAULT_EPSILON_TOLERANCE : ℝ := 1e-6

noncomputable def DEFAULT_DELTA_TOLERANCE : ℝ := 1e-4

noncomputable def DEFAULT_PENALTY_UPDATE_FACTOR : ℝ := 5.0

noncomputable def DEFAULT_EPSILON_UPDATE_FACTOR : ℝ := 0.1

noncomputable def DEFAULT_INFEAS_SUFFICIENT_DECREASE_FACTOR : ℝ := 0.1

noncomputable def DEFAULT_INITIAL_TOLERANCE : ℝ := 0.1

/-- The ALM outer driver (`AlmOptimizer` in `alm_optimizer.rs`).  The Rust
struct borrows the cache and owns the problem; both are plain fields here.
`max_duration` is an abstract count of time units.  The `inner_solver` field
stands for the `PANOCOptimizer` that `solve_inner_problem` constructs inline
(modelled from the spec, see `InnerSolver`). -/
structure AlmOptimizer where
  alm_cache : AlmCache
  alm_problem : AlmProblem
  max_outer_iterations : Nat
  max_inner_iterations : Nat
  max_duration : Option Nat
  epsilon_tolerance : ℝ
  delta_tolerance : ℝ
  penalty_update_factor : ℝ
  epsilon_update_factor : ℝ
  sufficient_decrease_coeff : ℝ
  epsilon_inner_initial : ℝ
  inner_solver : InnerSolver

/-- `AlmOptimizer::new`: seeds the inner AKKT tolerance in the PANOC cache
with `DEFAULT_INITIAL_TOLERANCE` and fills every configuration field with its
default. -/
noncomputable def AlmOptimizer.new (alm_cache : AlmCache) (alm_problem : AlmProblem)
    (inner : InnerSolver) : AlmOptimizer :=
  { alm_cache := { alm_cache with
      panoc_cache := alm_cache.panoc_cache.set_akkt_tolerance DEFAULT_INITIAL_TOLERANCE }
    alm_problem := alm_problem
    max_outer_iterations := DEFAULT_MAX_OUTER_ITERATIONS
    max_inner_iterations := DEFAULT_MAX_INNER_ITERATIONS
    max_duration := none
    epsilon_tolerance := DEFAULT_EPSILON_TOLERANCE
    delta_tolerance := DEFAULT_DELTA_TOLERANCE
    penalty_update_factor := DEFAULT_PENALTY_UPDATE_FACTOR
    epsilon_update_factor := DEFAULT_EPSILON_UPDATE_FACTOR
    sufficient_decrease_coeff := DEFAULT_INFEAS_SUFFICIENT_DECREASE_FACTOR
    epsilon_inner_initial := DEFAULT_INITIAL_TOLERANCE
    inner_solver := inner }

/-- `with_initial_inner_tolerance`: stores the requested starting inner
tolerance in the `epsilon_inner_initial` field (and, exactly as the source,
does not touch the PANOC cache). -/
def AlmOptimizer.with_initial_inner_tolerance (s : AlmOptimizer)
    (initial_inner_tolerance : ℝ) : AlmOptimizer :=
  { s with epsilon_inner_initial := initial_inner_tolerance }

/-- `with_initial_penalty`: `if let Some(xi) = xi { xi[0] = c0 }`.  When
present, `xi` has length `1 + n1 ≥ 1` (spec §3), so the slice write is
`List.set 0`. -/
def AlmOptimizer.with_initial_penalty (s : AlmOptimizer) (c0 : ℝ) : AlmOptimizer :=
  match s.alm_cache.xi with
  | some xi => { s with alm_cache := { s.alm_cache with xi := some (xi.set 0 c0) } }
  | none => s

/-- `compute_alm_infeasibility`: when both `y_plus` and `xi` are present,
`delta_y_norm_plus ← sqrt(norm2_squared_diff(y_plus, xi[1..]))`.  (The source
returns `Result` but never an error.) -/
noncomputable def compute_alm_infeasibility (cache : AlmCache) : AlmCache :=
  match cache.y_plus, cache.xi with
  | some y_plus, some xi =>
      { cache with delta_y_norm_plus := Real.sqrt (norm2_squared_diff y_plus (xi.drop 1)) }
  | _, _ => cache

/-- `compute_pm_infeasibility`: when an `F2` mapping and the `w_pm` buffer are
present, `w_pm ← F2(u)` and `f2_norm_plus ← ‖w_pm‖`; oracle failure
propagates. -/
noncomputable def compute_pm_infeasibility (problem : AlmProblem) (cache : AlmCache)
    (u : List ℝ) : Except SolverError AlmCache :=
  match problem.mapping_f2, cache.w_pm with
  | some f2, some _ =>
      match f2 u with
      | .error e => .error e
      | .ok w => .ok { cache with w_pm := some w, f2_norm_plus := norm2 w }
  | _, _ => .ok cache

/-- `update_lagrange_multipliers`:
`y⁺ ← y + c·(F1(u) − Proj_C(F1(u) + y/c))`, computed in the source's four
in-place steps.  All buffers have length `n1` by cache construction (spec
invariant 2), so the source's truncating `zip`s over the buffers coincide
with the maps below over the freshly computed vectors. -/
noncomputable def update_lagrange_multipliers (problem : AlmProblem) (cache : AlmCache)
    (u : List ℝ) : Except SolverError AlmCache :=
  if problem.n1 = 0 then .ok cache
  else
    match problem.mapping_f1, cache.w_alm_aux, cache.y_plus, cache.xi, problem.alm_set_c with
    | some f1, some _, some _, some xi, some proj_c =>
        match f1 u with
        | .error e => .error e
        | .ok w =>
            let y := xi.drop 1
            let c := xi.headD 0
            let yp := (w.zip y).map fun p => p.1 + p.2 / c
            let yp_proj := proj_c yp
            let yp_new := (yp_proj.zip (y.zip w)).map fun p => p.2.1 + c * (p.2.2 - p.1)
            .ok { cache with w_alm_aux := some w, y_plus := some yp_new }
    | _, _, _, _, _ => .ok cache

/-- `project_on_set_y`: when the set `Y` and `xi` are present, projects
`xi[1..]` onto `Y` in place; `xi[0] = c` is untouched. -/
def project_on_set_y (problem : AlmProblem) (cache : AlmCache) : AlmCache :=
  match problem.alm_set_y with
  | some y_set =>
      match cache.xi with
      | some xi => { cache with xi := some (xi.take 1 ++ y_set (xi.drop 1)) }
      | none => cache
  | none => cache

/-- `solve_inner_problem`: builds ψ and ∇ψ from the parametric oracles with
`ξ` captured (the cached `ξ` or the empty vector), and runs the inner solver
on them with the current PANOC cache. -/
noncomputable def solve_inner_problem (s : AlmOptimizer) (u : List ℝ) :
    Except SolverError (List ℝ × PANOCCache × SolverStatus) :=
  let xi := s.alm_cache.xi.getD []
  let psi : List ℝ → Except SolverError ℝ :=
    fun v => s.alm_problem.parametric_cost v xi
  let psi_grad : List ℝ → Except SolverError (List ℝ) :=
    fun v => s.alm_problem.parametric_gradient v xi
  s.inner_solver s.alm_problem.constraints psi psi_grad s.alm_cache.panoc_cache u

/-- `is_exit_criterion_satisfied`: criterion 1 is
`delta_y_norm_plus ≤ c·delta_tolerance` when `xi` is present (trivially true
otherwise); criterion 2 in the source compares `f2_norm_plus` with the
literal `1.0`, although its own comment reads `||F2(u+)|| <= delta`. -/
def is_exit_criterion_satisfied (s : AlmOptimizer) (cache : AlmCache) : Prop :=
  (match cache.xi with
   | some xi => cache.delta_y_norm_plus ≤ xi.headD 0 * s.delta_tolerance
   | none => True)
  ∧ cache.f2_norm_plus ≤ 1.0

/-- `is_penalty_stall_criterion`: the penalty is held when `iteration = 0` or
either infeasibility decreased sufficiently. -/
def is_penalty_stall_criterion (s : AlmOptimizer) (cache : AlmCache) : Prop :=
  cache.iteration = 0
    ∨ cache.delta_y_norm_plus < s.sufficient_decrease_coeff * cache.delta_y_norm
    ∨ cache.f2_norm_plus < s.sufficient_decrease_coeff * cache.f2_norm

/-- `update_penalty`: `xi[0] *= penalty_update_factor` when `xi` is present.
`xi`, when present, is non-empty (spec §3), so `List.set 0` with the scaled
head is the in-place multiplication. -/
def update_penalty (s : AlmOptimizer) (cache : AlmCache) : AlmCache :=
  match cache.xi with
  | some xi =>
      { cache with xi := some (xi.set 0 (xi.headD 0 * s.penalty_update_factor)) }
  | none => cache

/-- `update_inner_akkt_tolerance`:
`ε ← max(ε_old · epsilon_update_factor, epsilon_tolerance)`.  The source
unwraps the stored tolerance; `none` is unreachable because `new` always
seeds it, and the model leaves the cache unchanged there. -/
noncomputable def update_inner_akkt_tolerance (s : AlmOptimizer) (cache : AlmCache) :
    AlmCache :=
  match cache.panoc_cache.akkt_tolerance with
  | some tol =>
      { cache with
        panoc_cache :=
          cache.panoc_cache.set_akkt_tolerance
            (max (tol * s.epsilon_update_factor) s.epsilon_tolerance) }
  | none => cache


/-- `final_cache_update`: exactly as the source —
`iteration += 1`, `delta_y_norm ← delta_y_norm_plus`,
`f2_norm_plus ← f2_norm` (this last assignment is in this direction in the
source, although the comment in `step` reads "sets f2_norm = f2_norm_plus"),
and the PANOC cache is reset. -/
def final_cache_update (cache : AlmCache) : AlmCache :=
  { cache with
    iteration := cache.iteration + 1
    delta_y_norm := cache.delta_y_norm_plus
    f2_norm_plus := cache.f2_norm
    panoc_cache := cache.panoc_cache.reset }

/-- The measuring prefix of `step` (its straight-line first half): project `y`
onto `Y`, solve the inner problem, update the Lagrange multipliers, and
measure both infeasibilities.  Oracle errors propagate. -/
noncomputable def step_measure (s : AlmOptimizer) (u : List ℝ) :
    Except SolverError (AlmCache × List ℝ) :=
  let cache0 := project_on_set_y s.alm_problem s.alm_cache
  match solve_inner_problem { s with alm_cache := cache0 } u with
  | .error e => .error e
  | .ok (u1, pc1, _status) =>
      let cache1 := { cache0 with panoc_cache := pc1 }
      match update_lagrange_multipliers s.alm_problem cache1 u1 with
      | .error e => .error e
      | .ok cache2 =>
          match compute_pm_infeasibility s.alm_problem cache2 u1 with
          | .error e => .error e
          | .ok cache3 => .ok (compute_alm_infeasibility cache3, u1)

open Classical in
/-- The concluding second half of `step`: if the exit criterion holds, return
`STOP` (`false`) at once; otherwise update the penalty unless the stall
criterion fires, tighten the inner tolerance, run the final cache update, and
return `CONTINUE` (`true`). -/
noncomputable def step_conclude (s : AlmOptimizer) (cache : AlmCache) (u : List ℝ) :
    Bool × AlmCache × List ℝ :=
  if is_exit_criterion_satisfied s cache then (false, cache, u)
  else
    let cache1 := if is_penalty_stall_criterion s cache then cache else update_penalty s cache
    let cache2 := update_inner_akkt_tolerance s cache1
    (true, final_cache_update cache2, u)

/-- `step`: one outer ALM iteration, `Ok(true)` = CONTINUE,
`Ok(false)` = STOP; oracle errors propagate. -/
noncomputable def step (s : AlmOptimizer) (u : List ℝ) :
    Except SolverError (Bool × AlmCache × List ℝ) :=
  match step_measure s u with
  | .error e => .error e
  | .ok (cache, u1) => .ok (step_conclude s cache u1)

/-- `solve`: exactly as the source — it runs a single `step`, binds its result
to `_step_result` without inspecting it, and returns `Ok(())` unconditionally;
there is no outer loop, no use of `max_outer_iterations` or `max_duration`,
and no error propagation.  (On an erroring step the Rust keeps the partial
cache mutations; the model keeps the pre-step state there — the returned
`Result`, which is all the caller observes, is `Ok(())` in both cases, as in
the source.) -/
noncomputable def solve (s : AlmOptimizer) (u : List ℝ) :
    Except SolverError Unit × AlmOptimizer × List ℝ :=
  match step s u with
  | .ok (_flag, cache1, u1) => (.ok (), { s with alm_cache := cache1 }, u1)
  | .error _ => (.ok (), s, u)

/-!
## Lipschitz estimator (`src/lipschitz_estimator.rs`)

The probed function has the C-style type `Fn(&[f64], &mut [f64]) -> i32`:
it writes a value vector and returns an `i32` status code; it is modelled as
a function returning the written vector together with the code.
-/

/-- `LipschitzEstimator`: the point `u`, the internally allocated workspace,
the caller-provided function-value buffer, the probed function and the two
perturbation constants. -/
structure LipschitzEstimator where
  u_decision_var : List ℝ
  workspace : List ℝ
  function_value_at_u : List ℝ
  function : List ℝ → List ℝ × Int
  epsilon_lip : ℝ
  delta_lip : ℝ

/-- `LipschitzEstimator::new`: keeps the provided `u` and function-value
buffer, allocates a zero workspace of length `n = u.len()`, and sets
`epsilon = delta = 1e-6`. -/
noncomputable def LipschitzEstimator.new (u : List ℝ)
    (f : List ℝ → List ℝ × Int) (function_value : List ℝ) : LipschitzEstimator :=
  { u_decision_var := u
    workspace := List.replicate u.length 0
    function_value_at_u := function_value
    function := f
    epsilon_lip := 1e-6
    delta_lip := 1e-6 }

/-- `with_delta`: sets `delta_lip` (the source asserts `delta > 0` and panics
otherwise; the panic is outside the model). -/
def LipschitzEstimator.with_delta (s : LipschitzEstimator) (delta : ℝ) :
    LipschitzEstimator :=
  { s with delta_lip := delta }

/-- `with_epsilon`: sets `epsilon_lip` (the source asserts `epsilon > 0` and
panics otherwise; the panic is outside the model). -/
def LipschitzEstimator.with_epsilon (s : LipschitzEstimator) (epsilon : ℝ) :
    LipschitzEstimator :=
  { s with epsilon_lip := epsilon }

open Classical in
/-- `estimate_local_lipschitz`, step by step as in the source:
`function_value_at_u ← F(u)` (its `i32` return code is discarded);
`workspace ← h` with `hᵢ = if ε·uᵢ > δ then ε·uᵢ else δ` (the source zips the
workspace with `u`, so the workspace's length — `n` by construction — bounds
the loop); `norm_h = ‖h‖₂`; `u ← u + h` in place; `workspace ← F(u+h)` (code
again discarded); `workspace ← F(u+h) − F(u)`; returns
`‖workspace‖₂ / norm_h`. -/
noncomputable def LipschitzEstimator.estimate_local_lipschitz
    (s : LipschitzEstimator) : ℝ × LipschitzEstimator :=
  let fval := (s.function s.u_decision_var).1
  let h := (s.workspace.zip s.u_decision_var).map fun p =>
    if s.epsilon_lip * p.2 > s.delta_lip then s.epsilon_lip * p.2 else s.delta_lip
  let norm_h := norm2 h
  let u1 := (s.u_decision_var.zip h).map fun p => p.1 + p.2
  let w2 := (s.function u1).1
  let diff := (w2.zip fval).map fun p => p.1 - p.2
  (norm2 diff / norm_h,
   { s with u_decision_var := u1, workspace := diff, function_value_at_u := fval })

/-!
## FBS optimizer (`src/core/fbs/fbs_optimizer.rs`)

The `FBSEngine` is declared outside the staged sources; it is modelled from
the spec (§4.2) as a bundle of an `init` hook, a `step` transition on the
cache and the iterate, and the problem's cost oracle.  Wall time is modelled
by an abstract map from the index of each loop-condition evaluation to the
elapsed time in abstract units at that instant.
-/

/-- Modelled from the spec: the FBS engine cache fields the optimizer reads
and writes — the tolerance set by `with_tolerance` and the terminal
fixed-point-residual norm reported in the status. -/
structure FBSCache where
  tolerance : ℝ
  norm_fpr : ℝ

/-- Modelled from the spec: the FBS engine (§4.2).  `stepF` performs one
forward-backward update of the cache and the iterate and returns `true`
exactly while the iterate has not yet satisfied `‖FPR‖ ≤ ε` (i.e. `true`
means "continue"); `initF` is the `init` hook; `costF` is the problem's cost
oracle (value and `i32` status code). -/
structure FBSEngine where
  cache : FBSCache
  initF : FBSCache → List ℝ → FBSCache × List ℝ
  stepF : FBSCache → List ℝ → Bool × FBSCache × List ℝ
  costF : List ℝ → ℝ × Int

def FBS_MAX_ITER : Nat := 100

/-- `FBSOptimizer`: the engine, the iteration cap (default 100) and the
optional wall-clock budget (abstract time units). -/
structure FBSOptimizer where
  fbs_engine : FBSEngine
  max_iter : Nat
  max_duration : Option Nat

def FBSOptimizer.new (e : FBSEngine) : FBSOptimizer :=
  { fbs_engine := e, max_iter := FBS_MAX_ITER, max_duration := none }

/-- `with_max_iter`. -/
def FBSOptimizer.with_max_iter (o : FBSOptimizer) (m : Nat) : FBSOptimizer :=
  { o with max_iter := m }

/-- `with_max_duration`. -/
def FBSOptimizer.with_max_duration (o : FBSOptimizer) (d : Nat) : FBSOptimizer :=
  { o with max_duration := some d }

/-- `with_tolerance`: writes the engine cache's tolerance (the source asserts
`tolerance > 0`; the panic is outside the model). -/
def FBSOptimizer.with_tolerance (o : FBSOptimizer) (tol : ℝ) : FBSOptimizer :=
  { o with fbs_engine := { o.fbs_engine with
      cache := { o.fbs_engine.cache with tolerance := tol } } }

/-- The `max_duration = None` loop of `FBSOptimizer::solve`:
`while step(u) && num_iter < max_iter { num_iter += 1 }`.  Each condition
evaluation runs one engine step first; leaving the loop keeps that step's
mutations.  `fuel` bounds the recursion; `max_iter + 1` units are enough,
since `num_iter` grows by one per recursion and the condition fails at
`num_iter = max_iter`. -/
def fbs_loop (E : FBSEngine) (max_iter : Nat) :
    Nat → FBSCache → List ℝ → Nat → Nat × FBSCache × List ℝ
  | 0, c, u, n => (n, c, u)
  | fuel + 1, c, u, n =>
      let r := E.stepF c u
      if r.1 = true ∧ n < max_iter then fbs_loop E max_iter fuel r.2.1 r.2.2 (n + 1)
      else (n, r.2.1, r.2.2)

/-- The `max_duration = Some(dur)` loop of `FBSOptimizer::solve`, exactly as
the source writes its condition:
`while step(u) && num_iter < max_iter && dur <= now.elapsed()`.
`k` indexes the condition evaluations and `elapsed k` is the wall time
observed by the `k`-th one. -/
def fbs_loop_dur (E : FBSEngine) (max_iter dur : Nat) (elapsed : Nat → Nat) :
    Nat → Nat → FBSCache → List ℝ → Nat → Nat × FBSCache × List ℝ
  | 0, _, c, u, n => (n, c, u)
  | fuel + 1, k, c, u, n =>
      let r := E.stepF c u
      if r.1 = true ∧ n < max_iter ∧ dur ≤ elapsed k then
        fbs_loop_dur E max_iter dur elapsed fuel (k + 1) r.2.1 r.2.2 (n + 1)
      else (n, r.2.1, r.2.2)

/-- `FBSOptimizer::solve`: `init`, then the loop (duration branch when
`max_duration` is set), then the cost at the returned iterate (the source
asserts its status code is 0; the panic is outside the model), and the
status `(num_iter < max_iter, num_iter, ‖FPR‖, cost)`. -/
def FBSOptimizer.solve (o : FBSOptimizer) (elapsed : Nat → Nat) (u : List ℝ) :
    SolverStatus × FBSCache × List ℝ :=
  let i := o.fbs_engine.initF o.fbs_engine.cache u
  let r :=
    match o.max_duration with
    | some dur =>
        fbs_loop_dur o.fbs_engine o.max_iter dur elapsed (o.max_iter + 1) 0 i.1 i.2 0
    | none => fbs_loop o.fbs_engine o.max_iter (o.max_iter + 1) i.1 i.2 0
  let cost_value := (o.fbs_engine.costF r.2.2).1
  ({ has_converged := r.1 < o.max_iter, num_iter := r.1,
     norm_fpr := r.2.1.norm_fpr, cost_value := cost_value }, r.2.1, r.2.2)

/-!
## Vector helpers and concrete fixtures

`addVec`/`subVec`/`lipPerturbation` spell out the specification's
componentwise formulas, to be compared with the embedded code.  The fixtures
are concrete problem instances used to evaluate the embedded code at
explicit inputs.
-/

/-- Componentwise sum of two vectors (spec-side formula). -/
def addVec (a b : List ℝ) : List ℝ := List.zipWith (fun x y => x + y) a b

/-- Componentwise difference of two vectors (spec-side formula). -/
def subVec (a b : List ℝ) : List ℝ := List.zipWith (fun x y => x - y) a b

/-- The spec's perturbation rule `hᵢ = max(ε·uᵢ, δ)` (§4.1). -/
noncomputable def lipPerturbation (eps delta : ℝ) (u : List ℝ) : List ℝ :=
  u.map fun x => max (eps * x) delta

/-- An inner solver that returns the iterate and the inner cache unchanged
(a legitimate ε-AKKT oracle at an already-stationary iterate). -/
noncomputable def innerId : InnerSolver :=
  fun _ _ _ pc u => .ok (u, pc, ⟨true, 0, 0, 0⟩)

/-- A trivial unconstrained problem (`n1 = n2 = 0`, no `xi`). -/
noncomputable def probTrivial : AlmProblem :=
  { constraints := fun v => v
    alm_set_c := none
    alm_set_y := none
    parametric_cost := fun _ _ => .ok 0
    parametric_gradient := fun _ _ => .ok []
    mapping_f1 := none
    mapping_f2 := none
    n1 := 0
    n2 := 0 }

/-- A cache for `probTrivial`. -/
noncomputable def cacheTrivial : AlmCache :=
  { panoc_cache := ⟨none⟩
    xi := none
    y_plus := none
    w_alm_aux := none
    w_pm := none
    delta_y_norm := 0
    delta_y_norm_plus := 0
    f2_norm := 0
    f2_norm_plus := 0
    iteration := 0 }

/-- Optimizer over the trivial problem, used to instantiate `C7`. -/
noncomputable def optC7 : AlmOptimizer := AlmOptimizer.new cacheTrivial probTrivial innerId

/-- A problem with one ALM constraint and one PM constraint; `F1 ≡ [0]`,
`F2 ≡ [0.5]`, both set projections are the identity (projection onto the
whole space). -/
noncomputable def probC1 : AlmProblem :=
  { constraints := fun v => v
    alm_set_c := some fun v => v
    alm_set_y := some fun v => v
    parametric_cost := fun _ _ => .ok 0
    parametric_gradient := fun _ _ => .ok [0]
    mapping_f1 := some fun _ => .ok [0]
    mapping_f2 := some fun _ => .ok [0.5]
    n1 := 1
    n2 := 1 }

/-- A cache state for `probC1` after one measurement: `xi = [1, 0]`
(`c = 1`), both multiplier buffers at `[0]`, `w_pm = [0.5]`,
`delta_y_norm_plus = 0` and `f2_norm_plus = 0.5 = ‖F2(u)‖`. -/
noncomputable def cacheC1 : AlmCache :=
  { panoc_cache := ⟨some DEFAULT_INITIAL_TOLERANCE⟩
    xi := some [1, 0]
    y_plus := some [0]
    w_alm_aux := some [0]
    w_pm := some [0.5]
    delta_y_norm := 0
    delta_y_norm_plus := 0
    f2_norm := 0
    f2_norm_plus := 0.5
    iteration := 1 }

/-- Optimizer (default configuration, so `delta_tolerance = 1e-4`) holding
the `cacheC1` state. -/
noncomputable def optC1 : AlmOptimizer :=
  { AlmOptimizer.new cacheC1 probC1 innerId with alm_cache := cacheC1 }

/-- A cache entering `final_cache_update` with a freshly measured
`f2_norm_plus = 5` (and `f2_norm = 0` from the previous iteration),
`delta_y_norm_plus = 2`, `delta_y_norm = 7`, at outer iteration 3. -/
noncomputable def cacheC3 : AlmCache :=
  { panoc_cache := ⟨some DEFAULT_INITIAL_TOLERANCE⟩
    xi := some [1, 0]
    y_plus := some [0]
    w_alm_aux := some [0]
    w_pm := some [5]
    delta_y_norm := 7
    delta_y_norm_plus := 2
    f2_norm := 0
    f2_norm_plus := 5
    iteration := 3 }

/-- A problem with one ALM constraint and no PM constraint; `F1 ≡ [0]`, both
set projections are the identity. -/
noncomputable def probC6 : AlmProblem :=
  { constraints := fun v => v
    alm_set_c := some fun v => v
    alm_set_y := some fun v => v
    parametric_cost := fun _ _ => .ok 0
    parametric_gradient := fun _ _ => .ok [0]
    mapping_f1 := some fun _ => .ok [0]
    mapping_f2 := none
    n1 := 1
    n2 := 0 }

/-- A fresh cache for `probC6`: `xi = [1, 1]` (`c₀ = 1`, `y = [1]`), both
infeasibility slots at 0, iteration 0. -/
noncomputable def cacheC6 : AlmCache :=
  { panoc_cache := ⟨none⟩
    xi := some [1, 1]
    y_plus := some [0]
    w_alm_aux := some [0]
    w_pm := none
    delta_y_norm := 0
    delta_y_norm_plus := 0
    f2_norm := 0
    f2_norm_plus := 0
    iteration := 0 }

/-- Optimizer over `probC6` with the fresh cache and default configuration
(`ρ = 5`, `θ = 0.1`, `δ = 1e-4`). -/
noncomputable def optC6 : AlmOptimizer := AlmOptimizer.new cacheC6 probC6 innerId

/-- The inner tolerance after one tightening from the initial 0.1. -/
noncomputable def tolAfter1 : ℝ :=
  max (DEFAULT_INITIAL_TOLERANCE * DEFAULT_EPSILON_UPDATE_FACTOR) DEFAULT_EPSILON_TOLERANCE

/-- The inner tolerance after a second tightening. -/
noncomputable def tolAfter2 : ℝ :=
  max (tolAfter1 * DEFAULT_EPSILON_UPDATE_FACTOR) DEFAULT_EPSILON_TOLERANCE

/-- The measured mid-state of the first `step` on `optC6` at `u = [0]`:
`y⁺ = [0]`, so `δy⁺ = ‖[0] − [1]‖ = 1`, and the PM slot is untouched. -/
noncomputable def cexM1 : AlmCache :=
  { panoc_cache := ⟨some DEFAULT_INITIAL_TOLERANCE⟩
    xi := some [1, 1]
    y_plus := some [0]
    w_alm_aux := some [0]
    w_pm := none
    delta_y_norm := 0
    delta_y_norm_plus := 1
    f2_norm := 0
    f2_norm_plus := 0
    iteration := 0 }

/-- The cache after the first `step` concludes: the stall criterion fires
(`iteration = 0`), so `c` is unchanged; the tolerance tightens and the final
cache update runs. -/
noncomputable def cexS1 : AlmCache :=
  { panoc_cache := ⟨some tolAfter1⟩
    xi := some [1, 1]
    y_plus := some [0]
    w_alm_aux := some [0]
    w_pm := none
    delta_y_norm := 1
    delta_y_norm_plus := 1
    f2_norm := 0
    f2_norm_plus := 0
    iteration := 1 }

/-- The optimizer entering the second step of the counterexample run. -/
noncomputable def cexOptS1 : AlmOptimizer := { optC6 with alm_cache := cexS1 }

/-- The measured mid-state of the second `step`: the same measurement
(`δy⁺ = 1`) at iteration 1. -/
noncomputable def cexM2 : AlmCache :=
  { panoc_cache := ⟨some tolAfter1⟩
    xi := some [1, 1]
    y_plus := some [0]
    w_alm_aux := some [0]
    w_pm := none
    delta_y_norm := 1
    delta_y_norm_plus := 1
    f2_norm := 0
    f2_norm_plus := 0
    iteration := 1 }

/-- The cache after the second `step` concludes: no stall at iteration 1 with
no sufficient decrease, so `c ← ρ·c = 5`. -/
noncomputable def cexS2 : AlmCache :=
  { panoc_cache := ⟨some tolAfter2⟩
    xi := some [5, 1]
    y_plus := some [0]
    w_alm_aux := some [0]
    w_pm := none
    delta_y_norm := 1
    delta_y_norm_plus := 1
    f2_norm := 0
    f2_norm_plus := 0
    iteration := 2 }

/-- A cache like `cacheC6` but already at outer iteration 1 with
`delta_y_norm = 1` (the state `optC6` reaches after its first step). -/
noncomputable def escCache : AlmCache :=
  { panoc_cache := ⟨none⟩
    xi := some [1, 1]
    y_plus := some [0]
    w_alm_aux := some [0]
    w_pm := none
    delta_y_norm := 1
    delta_y_norm_plus := 0
    f2_norm := 0
    f2_norm_plus := 0
    iteration := 1 }

/-- Optimizer over `probC6` starting at iteration 1 (escalation witness). -/
noncomputable def escOpt : AlmOptimizer := AlmOptimizer.new escCache probC6 innerId

/-- The measured mid-state of the first witness step (`δy⁺ = 1` at
iteration 1). -/
noncomputable def escM1 : AlmCache :=
  { panoc_cache := ⟨some DEFAULT_INITIAL_TOLERANCE⟩
    xi := some [1, 1]
    y_plus := some [0]
    w_alm_aux := some [0]
    w_pm := none
    delta_y_norm := 1
    delta_y_norm_plus := 1
    f2_norm := 0
    f2_norm_plus := 0
    iteration := 1 }

/-- The cache after the first witness step: no stall, so `c ← 5`. -/
noncomputable def escS1 : AlmCache :=
  { panoc_cache := ⟨some tolAfter1⟩
    xi := some [5, 1]
    y_plus := some [0]
    w_alm_aux := some [0]
    w_pm := none
    delta_y_norm := 1
    delta_y_norm_plus := 1
    f2_norm := 0
    f2_norm_plus := 0
    iteration := 2 }

/-- The measured mid-state of the second witness step: with `c = 5` and
`y = [1]`, `y⁺ = [1 + 5·(0 − (0 + 1/5))] = [0]`, so again `δy⁺ = 1`. -/
noncomputable def escM2 : AlmCache :=
  { panoc_cache := ⟨some tolAfter1⟩
    xi := some [5, 1]
    y_plus := some [0]
    w_alm_aux := some [0]
    w_pm := none
    delta_y_norm := 1
    delta_y_norm_plus := 1
    f2_norm := 0
    f2_norm_plus := 0
    iteration := 2 }

/-- The three-component mock of the repository's Lipschitz tests:
`F(u) = (3u₀, 2u₁, 4.5)`, success code 0. -/
noncomputable def lipMockF : List ℝ → List ℝ × Int :=
  fun v => ([3 * v.headD 0, 2 * v.getD 1 0, 4.5], 0)

/-- A probed function that always reports failure (status code 1) and writes
`[0]`. -/
noncomputable def lipFailMock : List ℝ → List ℝ × Int := fun _ => ([0], 1)

/-- The same written values as `lipFailMock` but reporting success. -/
noncomputable def lipOkMock : List ℝ → List ℝ × Int := fun _ => ([0], 0)

/-- An FBS engine whose step always reports non-convergence and leaves the
cache (with `‖FPR‖ = 1 > tolerance = 1e-4`) and the iterate unchanged. -/
noncomputable def fbsEngineStub : FBSEngine :=
  { cache := { tolerance := 1e-4, norm_fpr := 1 }
    initF := fun c v => (c, v)
    stepF := fun c v => (true, c, v)
    costF := fun _ => (0, 0) }

/-- The stub engine under a 10-unit wall-clock budget and the default
iteration cap of 100. -/
noncomputable def fbsOptDur : FBSOptimizer :=
  { fbs_engine := fbsEngineStub, max_iter := 100, max_duration := some 10 }

/-!
## Helper lemmas
-/

/-- A `zip`-then-`map` that only uses the second component is a `map` over the
second list, when the first list is at least as long (here: equally long). -/
theorem zip_map_snd {α β γ : Type} (g : β → γ) :
    ∀ (ws : List α) (u : List β), ws.length = u.length →
      (ws.zip u).map (fun p => g p.2) = u.map g := by
  intro ws
  induction ws with
  | nil =>
      intro u h
      cases u with
      | nil => rfl
      | cons b bs => simp at h
  | cons a as ih =>
      intro u h
      cases u with
      | nil => simp at h
      | cons b bs =>
          simp only [List.zip_cons_cons, List.map_cons]
          rw [ih bs (by simpa using h)]

/-- `zip` followed by a componentwise sum is `addVec`. -/
theorem zip_map_add : ∀ a b : List ℝ, (a.zip b).map (fun p => p.1 + p.2) = addVec a b := by
  intro a
  induction a with
  | nil => intro b; rfl
  | cons x xs ih =>
      intro b
      cases b with
      | nil => rfl
      | cons y ys => simp [addVec, List.zip_cons_cons, ih ys]

/-- `zip` followed by a componentwise difference is `subVec`. -/
theorem zip_map_sub : ∀ a b : List ℝ, (a.zip b).map (fun p => p.1 - p.2) = subVec a b := by
  intro a
  induction a with
  | nil => intro b; rfl
  | cons x xs ih =>
      intro b
      cases b with
      | nil => rfl
      | cons y ys => simp [subVec, List.zip_cons_cons, ih ys]

/-- `update_penalty` scales `xi[0]` by the penalty update factor and changes
nothing else in `xi`. -/
theorem update_penalty_xi (s : AlmOptimizer) (c : AlmCache) :
    (update_penalty s c).xi
      = c.xi.map fun l => l.set 0 (l.headD 0 * s.penalty_update_factor) := by
  rcases hxi : c.xi with _ | xi
  · simp [update_penalty, hxi]
  · simp [update_penalty, hxi]

/-- `update_inner_akkt_tolerance` does not touch `xi`. -/
theorem update_inner_akkt_tolerance_xi (s : AlmOptimizer) (c : AlmCache) :
    (update_inner_akkt_tolerance s c).xi = c.xi := by
  unfold update_inner_akkt_tolerance
  split <;> rfl

/-- `final_cache_update` does not touch `xi`. -/
theorem final_cache_update_xi (c : AlmCache) : (final_cache_update c).xi = c.xi := rfl

/-- `compute_alm_infeasibility` does not touch `xi`. -/
theorem compute_alm_infeasibility_xi (c : AlmCache) :
    (compute_alm_infeasibility c).xi = c.xi := by
  unfold compute_alm_infeasibility
  split <;> rfl

/-- A successful `update_lagrange_multipliers` does not touch `xi`. -/
theorem update_lagrange_multipliers_xi (p : AlmProblem) (c : AlmCache) (u : List ℝ)
    (c2 : AlmCache) (h : update_lagrange_multipliers p c u = .ok c2) : c2.xi = c.xi := by
  unfold update_lagrange_multipliers at h
  split at h
  · simp only [Except.ok.injEq] at h
    rw [← h]
  · split at h
    · split at h
      · simp at h
      · simp only [Except.ok.injEq] at h
        rw [← h]
    · simp only [Except.ok.injEq] at h
      rw [← h]

/-- A successful `compute_pm_infeasibility` does not touch `xi`. -/
theorem compute_pm_infeasibility_xi (p : AlmProblem) (c : AlmCache) (u : List ℝ)
    (c2 : AlmCache) (h : compute_pm_infeasibility p c u = .ok c2) : c2.xi = c.xi := by
  unfold compute_pm_infeasibility at h
  split at h
  · split at h
    · simp at h
    · simp only [Except.ok.injEq] at h
      rw [← h]
  · simp only [Except.ok.injEq] at h
    rw [← h]

/-- `project_on_set_y` preserves the head of `xi` (the penalty `c`), only
projecting the tail. -/
theorem project_on_set_y_xi_head (p : AlmProblem) (c : AlmCache) (a : ℝ) (l : List ℝ)
    (hx : c.xi = some (a :: l)) :
    ∃ l', (project_on_set_y p c).xi = some (a :: l') := by
  rcases hys : p.alm_set_y with _ | ys
  · exact ⟨l, by simp [project_on_set_y, hys, hx]⟩
  · exact ⟨ys l, by simp [project_on_set_y, hys, hx]⟩

/-- Through the measuring half of a `step`, the head of `xi` (the penalty
`c`) is preserved. -/
theorem step_measure_xi_head (s : AlmOptimizer) (u u1 : List ℝ) (m : AlmCache)
    (a : ℝ) (l : List ℝ) (h : step_measure s u = .ok (m, u1))
    (hx : s.alm_cache.xi = some (a :: l)) : ∃ l', m.xi = some (a :: l') := by
  obtain ⟨l0, hp⟩ := project_on_set_y_xi_head s.alm_problem s.alm_cache a l hx
  simp only [step_measure] at h
  cases hsi : solve_inner_problem
      { s with alm_cache := project_on_set_y s.alm_problem s.alm_cache } u with
  | error e => rw [hsi] at h; simp at h
  | ok t =>
      obtain ⟨u1', pc1, st⟩ := t
      rw [hsi] at h
      dsimp only at h
      cases hlm : update_lagrange_multipliers s.alm_problem
          { project_on_set_y s.alm_problem s.alm_cache with panoc_cache := pc1 } u1' with
      | error e => rw [hlm] at h; simp at h
      | ok c2 =>
          rw [hlm] at h
          dsimp only at h
          cases hpm : compute_pm_infeasibility s.alm_problem c2 u1' with
          | error e => rw [hpm] at h; simp at h
          | ok c3 =>
              rw [hpm] at h
              dsimp only at h
              simp only [Except.ok.injEq, Prod.mk.injEq] at h
              obtain ⟨hm, _⟩ := h
              refine ⟨l0, ?_⟩
              rw [← hm, compute_alm_infeasibility_xi,
                compute_pm_infeasibility_xi _ _ _ _ hpm,
                update_lagrange_multipliers_xi _ _ _ _ hlm]
              exact hp

/-- The stall criterion fails when the iteration is positive and neither
infeasibility decreased sufficiently. -/
theorem stall_criterion_fails (s : AlmOptimizer) (c : AlmCache)
    (hit : c.iteration ≠ 0)
    (hd : ¬ c.delta_y_norm_plus < s.sufficient_decrease_coeff * c.delta_y_norm)
    (hf : ¬ c.f2_norm_plus < s.sufficient_decrease_coeff * c.f2_norm) :
    ¬ is_penalty_stall_criterion s c := by
  simp only [is_penalty_stall_criterion, not_or]
  exact ⟨hit, hd, hf⟩

/-!
## Claim theorems
-/

/-- C10: `with_initial_penalty(c0)` writes `c0` into `xi[0]` unconditionally,
for every value `c0`, performing no validation; it leaves the multiplier
entries `xi[1..]` — and every other field of the optimizer — unchanged, and
when the cache holds no `xi` the call is a silent no-op. -/
theorem with_initial_penalty_spec (s : AlmOptimizer) (c0 : ℝ) :
    (s.alm_cache.xi = none → s.with_initial_penalty c0 = s) ∧
    (∀ c ys, s.alm_cache.xi = some (c :: ys) →
      s.with_initial_penalty c0
        = { s with alm_cache := { s.alm_cache with xi := some (c0 :: ys) } }) := by
  constructor
  · intro h
    simp [AlmOptimizer.with_initial_penalty, h]
  · intro c ys h
    simp [AlmOptimizer.with_initial_penalty, h]

/-- C5: `with_initial_inner_tolerance(x)` only records `x` in the (never
read) `epsilon_inner_initial` field; the AKKT tolerance actually seeded in
the PANOC cache — the one in effect at the start of the first inner solve —
remains `DEFAULT_INITIAL_TOLERANCE = 0.1` for every constructed optimizer
and every requested `x`. -/
theorem initial_inner_tolerance_setter_unread (cache : AlmCache) (prob : AlmProblem)
    (inner : InnerSolver) (tol0 : ℝ) :
    ((AlmOptimizer.new cache prob inner).with_initial_inner_tolerance
        tol0).alm_cache.panoc_cache.akkt_tolerance = some DEFAULT_INITIAL_TOLERANCE ∧
    ((AlmOptimizer.new cache prob inner).with_initial_inner_tolerance
        tol0).epsilon_inner_initial = tol0 ∧
    DEFAULT_INITIAL_TOLERANCE = (0.1 : ℝ) :=
  ⟨rfl, rfl, rfl⟩

/-- C2: `solve` runs a single `step` and returns `Ok(())` unconditionally —
for every optimizer and every iterate, including when the step fails with an
evaluation error, the caller receives `Ok(())`: no loop, no error
propagation. -/
theorem solve_never_reports_errors (s : AlmOptimizer) (u : List ℝ) :
    (solve s u).1 = Except.ok () := by
  cases h : step s u <;> simp [solve, h]

/-- C3: `final_cache_update` on a cache with freshly measured
`f2_norm_plus = 5` and previous `f2_norm = 0` increments the iteration and
moves `delta_y_norm_plus` into `delta_y_norm`, but assigns in the reversed
direction for the PM slot: `f2_norm` stays `0` (it does not receive the
measured `5`) and the measured value is overwritten by `f2_norm_plus ← 0`. -/
theorem final_cache_update_reverses_f2 :
    (final_cache_update cacheC3).iteration = 4 ∧
    (final_cache_update cacheC3).delta_y_norm = 2 ∧
    (final_cache_update cacheC3).f2_norm = 0 ∧
    (final_cache_update cacheC3).f2_norm_plus = 0 ∧
    (final_cache_update cacheC3).f2_norm ≠ 5 := by
  refine ⟨rfl, rfl, rfl, rfl, ?_⟩
  show cacheC3.f2_norm ≠ 5
  norm_num [cacheC3]

/-- C1: the exit criterion compares `f2_norm_plus` with the literal `1.0`
instead of `delta_tolerance`: on `optC1` (default `delta_tolerance = 1e-4`,
measured `f2_norm_plus = 0.5`) the criterion is satisfied — so the step
returns STOP — although `f2_norm_plus > delta_tolerance`. -/
theorem exit_criterion_ignores_delta_tolerance :
    is_exit_criterion_satisfied optC1 optC1.alm_cache ∧
    ¬ optC1.alm_cache.f2_norm_plus ≤ optC1.delta_tolerance ∧
    (step_conclude optC1 optC1.alm_cache [0]).1 = false := by
  have hexit : is_exit_criterion_satisfied optC1 optC1.alm_cache := by
    constructor
    · show (match optC1.alm_cache.xi with
        | some xi => optC1.alm_cache.delta_y_norm_plus ≤ xi.headD 0 * optC1.delta_tolerance
        | none => True)
      norm_num [optC1, cacheC1, AlmOptimizer.new, DEFAULT_DELTA_TOLERANCE]
    · show optC1.alm_cache.f2_norm_plus ≤ 1.0
      norm_num [optC1, cacheC1]
  refine ⟨hexit, ?_, ?_⟩
  · show ¬ optC1.alm_cache.f2_norm_plus ≤ optC1.delta_tolerance
    norm_num [optC1, cacheC1, AlmOptimizer.new, DEFAULT_DELTA_TOLERANCE]
  · simp only [step_conclude]
    rw [if_pos hexit]

/-- C7: `update_inner_akkt_tolerance` replaces the stored inner tolerance `t`
by `max(t·β, ε_target)`; with a positive target, `t ≥ ε_target` and
`0 < β < 1` the new tolerance is at most `t` and at least `ε_target` — the
inner tolerance is non-increasing across outer iterations and bounded below
by the target. -/
theorem inner_tolerance_update_monotone (s : AlmOptimizer) (t : ℝ)
    (h : s.alm_cache.panoc_cache.akkt_tolerance = some t)
    (heps : 0 < s.epsilon_tolerance)
    (hle : s.epsilon_tolerance ≤ t)
    (hb0 : 0 < s.epsilon_update_factor)
    (hb1 : s.epsilon_update_factor < 1) :
    (update_inner_akkt_tolerance s s.alm_cache).panoc_cache.akkt_tolerance
      = some (max (t * s.epsilon_update_factor) s.epsilon_tolerance) ∧
    max (t * s.epsilon_update_factor) s.epsilon_tolerance ≤ t ∧
    s.epsilon_tolerance ≤ max (t * s.epsilon_update_factor) s.epsilon_tolerance := by
  have ht : (0 : ℝ) ≤ t := le_trans heps.le hle
  refine ⟨?_, max_le (mul_le_of_le_one_right ht hb1.le) hle, le_max_right _ _⟩
  simp [update_inner_akkt_tolerance, h, PANOCCache.set_akkt_tolerance]

/-- Witness for C7: the update on `optC7` (stored tolerance 0.1, target
`1e-6`, factor `0.1`) satisfies the claim's formula and both bounds. -/
theorem inner_tolerance_update_monotone_witness :
    (update_inner_akkt_tolerance optC7 optC7.alm_cache).panoc_cache.akkt_tolerance
      = some (max (DEFAULT_INITIAL_TOLERANCE * optC7.epsilon_update_factor)
          optC7.epsilon_tolerance) ∧
    max (DEFAULT_INITIAL_TOLERANCE * optC7.epsilon_update_factor) optC7.epsilon_tolerance
      ≤ DEFAULT_INITIAL_TOLERANCE ∧
    optC7.epsilon_tolerance
      ≤ max (DEFAULT_INITIAL_TOLERANCE * optC7.epsilon_update_factor)
          optC7.epsilon_tolerance := by
  refine inner_tolerance_update_monotone optC7 DEFAULT_INITIAL_TOLERANCE rfl ?_ ?_ ?_ ?_
  · show (0 : ℝ) < optC7.epsilon_tolerance
    norm_num [optC7, AlmOptimizer.new, DEFAULT_EPSILON_TOLERANCE]
  · show optC7.epsilon_tolerance ≤ DEFAULT_INITIAL_TOLERANCE
    norm_num [optC7, AlmOptimizer.new, DEFAULT_EPSILON_TOLERANCE, DEFAULT_INITIAL_TOLERANCE]
  · show (0 : ℝ) < optC7.epsilon_update_factor
    norm_num [optC7, AlmOptimizer.new, DEFAULT_EPSILON_UPDATE_FACTOR]
  · show optC7.epsilon_update_factor < 1
    norm_num [optC7, AlmOptimizer.new, DEFAULT_EPSILON_UPDATE_FACTOR]

/-- C4: with `max_duration` set, the loop condition of `FBSOptimizer::solve`
demands `dur <= now.elapsed()` to continue, so with the elapsed time still 0
the solve returns after a single engine step with `num_iter = 0` and a
fixed-point residual (1) far above the tolerance (`1e-4`) — although the
engine step reported non-convergence and the iteration cap (100) was not
reached. -/
theorem fbs_solve_duration_stops_immediately :
    (fbsOptDur.solve (fun _ => 0) [0]).1.num_iter = 0 ∧
    (fbsOptDur.solve (fun _ => 0) [0]).1.norm_fpr = 1 ∧
    ¬ (fbsOptDur.solve (fun _ => 0) [0]).1.norm_fpr
        ≤ fbsOptDur.fbs_engine.cache.tolerance ∧
    (fbsOptDur.fbs_engine.stepF fbsOptDur.fbs_engine.cache [0]).1 = true ∧
    0 < fbsOptDur.max_iter := by
  have h2 : (fbsOptDur.solve (fun _ => 0) [0]).1.norm_fpr = 1 := rfl
  have ht : fbsOptDur.fbs_engine.cache.tolerance = 1e-4 := rfl
  refine ⟨rfl, h2, ?_, rfl, by decide⟩
  rw [h2, ht]
  norm_num

/-- C8: `estimate_local_lipschitz` returns
`‖F(u+h) − F(u)‖₂ / ‖h‖₂` with `hᵢ = max(ε·uᵢ, δ)` built from the original
`u`; on exit the decision-variable slice holds `u + h` (perturbed in place)
and the caller-provided function-value buffer holds `F` evaluated at the
original `u`.  The hypothesis is the workspace length established by `new`. -/
theorem estimate_local_lipschitz_spec (s : LipschitzEstimator)
    (hw : s.workspace.length = s.u_decision_var.length) :
    (s.estimate_local_lipschitz).1
      = norm2 (subVec
          ((s.function (addVec s.u_decision_var
            (lipPerturbation s.epsilon_lip s.delta_lip s.u_decision_var))).1)
          ((s.function s.u_decision_var).1))
        / norm2 (lipPerturbation s.epsilon_lip s.delta_lip s.u_decision_var) ∧
    (s.estimate_local_lipschitz).2.u_decision_var
      = addVec s.u_decision_var
          (lipPerturbation s.epsilon_lip s.delta_lip s.u_decision_var) ∧
    (s.estimate_local_lipschitz).2.function_value_at_u
      = (s.function s.u_decision_var).1 := by
  have hhl : ((s.workspace.zip s.u_decision_var).map fun p =>
        if s.epsilon_lip * p.2 > s.delta_lip then s.epsilon_lip * p.2 else s.delta_lip)
      = lipPerturbation s.epsilon_lip s.delta_lip s.u_decision_var := by
    rw [zip_map_snd
      (fun x => if s.epsilon_lip * x > s.delta_lip then s.epsilon_lip * x else s.delta_lip)
      s.workspace s.u_decision_var hw]
    unfold lipPerturbation
    refine List.map_congr_left ?_
    intro x _
    rcases le_or_lt (s.epsilon_lip * x) s.delta_lip with hc | hc
    · rw [if_neg (not_lt.2 hc), max_eq_right hc]
    · rw [if_pos hc, max_eq_left hc.le]
  refine ⟨?_, ?_, rfl⟩
  · show norm2 (((s.function ((s.u_decision_var.zip _).map fun p => p.1 + p.2)).1.zip
        (s.function s.u_decision_var).1).map fun p => p.1 - p.2) / norm2 _ = _
    rw [hhl, zip_map_add, zip_map_sub]
  · show ((s.u_decision_var.zip _).map fun p => p.1 + p.2) = _
    rw [hhl, zip_map_add]

/-- Witness for C8 at the repository's mock `F(u) = (3u₀, 2u₁, 4.5)` and
`u = [1, 2, 3]`: the function-value buffer ends up holding `F(u)` at the
original `u`. -/
theorem estimate_local_lipschitz_spec_witness :
    ((LipschitzEstimator.new [1, 2, 3] lipMockF
        [0, 0, 0]).estimate_local_lipschitz).2.function_value_at_u
      = (lipMockF [1, 2, 3]).1 :=
  (estimate_local_lipschitz_spec (LipschitzEstimator.new [1, 2, 3] lipMockF [0, 0, 0])
    (by simp [LipschitzEstimator.new])).2.2

/-- Counterexample for C9: a probed function that reports failure (status
code 1) on every call does not make `estimate_local_lipschitz` return an
error — the run produces exactly the same value as with the
always-succeeding function writing the same data, here the plain number 0. -/
theorem lipschitz_failure_not_an_error_cex :
    ((LipschitzEstimator.new [0] lipFailMock [0]).estimate_local_lipschitz).1
      = ((LipschitzEstimator.new [0] lipOkMock [0]).estimate_local_lipschitz).1 ∧
    ((LipschitzEstimator.new [0] lipFailMock [0]).estimate_local_lipschitz).1 = 0 := by
  constructor
  · rfl
  · obtain ⟨d, hd⟩ : ∃ d : ℝ,
        ((LipschitzEstimator.new [0] lipFailMock [0]).estimate_local_lipschitz).1
          = norm2 [(0 : ℝ) - 0] / d := ⟨_, rfl⟩
    rw [hd]
    have hnum : norm2 [(0 : ℝ) - 0] = 0 := by simp [norm2]
    rw [hnum, zero_div]

/-- C9 amended: the `i32` status codes of the probed function are discarded
on both evaluations — `estimate_local_lipschitz` returns the same value and
the same final buffers as if the function always reported success, and no
error is surfaced. -/
theorem estimate_ignores_status_codes (s : LipschitzEstimator) :
    (({ s with function := fun v => ((s.function v).1, 0) } :
        LipschitzEstimator).estimate_local_lipschitz).1
      = (s.estimate_local_lipschitz).1 ∧
    (({ s with function := fun v => ((s.function v).1, 0) } :
        LipschitzEstimator).estimate_local_lipschitz).2.u_decision_var
      = (s.estimate_local_lipschitz).2.u_decision_var ∧
    (({ s with function := fun v => ((s.function v).1, 0) } :
        LipschitzEstimator).estimate_local_lipschitz).2.workspace
      = (s.estimate_local_lipschitz).2.workspace ∧
    (({ s with function := fun v => ((s.function v).1, 0) } :
        LipschitzEstimator).estimate_local_lipschitz).2.function_value_at_u
      = (s.estimate_local_lipschitz).2.function_value_at_u :=
  ⟨rfl, rfl, rfl, rfl⟩

/-- C6 (amended): in every non-terminating step the penalty `c = xi[0]` is
unchanged when the stall criterion fires and scaled by `ρ` otherwise (first
conjunct); and two successive non-terminating steps, both at outer
iteration ≥ 1 and with neither infeasibility decreasing by the factor `θ`,
multiply the entering `c` by `ρ²` (at iteration 0 the stall criterion always
fires, so the program's first step never scales `c`).  `m1`, `m2` are the
measured mid-step states of the two steps. -/
theorem alm_penalty_escalation
    (s : AlmOptimizer) (u u1 u2 : List ℝ) (m1 m2 : AlmCache) (c : ℝ) (y : List ℝ)
    (h1 : step_measure s u = Except.ok (m1, u1))
    (hx : m1.xi = some (c :: y))
    (hit1 : m1.iteration ≠ 0)
    (hd1 : ¬ m1.delta_y_norm_plus < s.sufficient_decrease_coeff * m1.delta_y_norm)
    (hf1 : ¬ m1.f2_norm_plus < s.sufficient_decrease_coeff * m1.f2_norm)
    (hex1 : ¬ is_exit_criterion_satisfied s m1)
    (h2 : step_measure { s with alm_cache := (step_conclude s m1 u1).2.1 } u1
        = Except.ok (m2, u2))
    (hit2 : m2.iteration ≠ 0)
    (hd2 : ¬ m2.delta_y_norm_plus < s.sufficient_decrease_coeff * m2.delta_y_norm)
    (hf2 : ¬ m2.f2_norm_plus < s.sufficient_decrease_coeff * m2.f2_norm)
    (hex2 : ¬ is_exit_criterion_satisfied s m2) :
    (∀ (m : AlmCache) (v : List ℝ), ¬ is_exit_criterion_satisfied s m →
      (is_penalty_stall_criterion s m → ((step_conclude s m v).2.1).xi = m.xi) ∧
      (¬ is_penalty_stall_criterion s m →
        ((step_conclude s m v).2.1).xi
          = m.xi.map fun l => l.set 0 (l.headD 0 * s.penalty_update_factor))) ∧
    (step_conclude s m1 u1).1 = true ∧
    ((step_conclude s m1 u1).2.1).xi = some (c * s.penalty_update_factor :: y) ∧
    (step_conclude s m2 u2).1 = true ∧
    (∃ y2, ((step_conclude s m2 u2).2.1).xi
      = some (c * s.penalty_update_factor * s.penalty_update_factor :: y2)) := by
  have dich : ∀ (m : AlmCache) (v : List ℝ), ¬ is_exit_criterion_satisfied s m →
      (is_penalty_stall_criterion s m → ((step_conclude s m v).2.1).xi = m.xi) ∧
      (¬ is_penalty_stall_criterion s m →
        ((step_conclude s m v).2.1).xi
          = m.xi.map fun l => l.set 0 (l.headD 0 * s.penalty_update_factor)) := by
    intro m v hex
    constructor
    · intro hstall
      simp only [step_conclude]
      rw [if_neg hex, if_pos hstall]
      dsimp only
      rw [final_cache_update_xi, update_inner_akkt_tolerance_xi]
    · intro hnstall
      simp only [step_conclude]
      rw [if_neg hex, if_neg hnstall]
      dsimp only
      rw [final_cache_update_xi, update_inner_akkt_tolerance_xi, update_penalty_xi]
  have hnstall1 : ¬ is_penalty_stall_criterion s m1 :=
    stall_criterion_fails s m1 hit1 hd1 hf1
  have hnstall2 : ¬ is_penalty_stall_criterion s m2 :=
    stall_criterion_fails s m2 hit2 hd2 hf2
  have hs1fst : (step_conclude s m1 u1).1 = true := by
    simp only [step_conclude]
    rw [if_neg hex1]
  have hs2fst : (step_conclude s m2 u2).1 = true := by
    simp only [step_conclude]
    rw [if_neg hex2]
  have hs1xi : ((step_conclude s m1 u1).2.1).xi
      = some (c * s.penalty_update_factor :: y) := by
    rw [(dich m1 u1 hex1).2 hnstall1, hx]
    simp
  obtain ⟨y2, hm2⟩ : ∃ y2, m2.xi = some (c * s.penalty_update_factor :: y2) := by
    refine step_measure_xi_head _ u1 u2 m2 _ y h2 ?_
    show ((step_conclude s m1 u1).2.1).xi = some (c * s.penalty_update_factor :: y)
    exact hs1xi
  have hs2xi : ((step_conclude s m2 u2).2.1).xi
      = some (c * s.penalty_update_factor * s.penalty_update_factor :: y2) := by
    rw [(dich m2 u2 hex2).2 hnstall2, hm2]
    simp
  exact ⟨dich, hs1fst, hs1xi, hs2fst, ⟨y2, hs2xi⟩⟩

/-- Evaluation: the measured mid-state of the first witness step. -/
theorem escM1_measure : step_measure escOpt [0] = Except.ok (escM1, [0]) := by
  simp only [step_measure, escOpt, AlmOptimizer.new, escCache, probC6, innerId,
    project_on_set_y, solve_inner_problem, update_lagrange_multipliers,
    compute_pm_infeasibility, compute_alm_infeasibility, PANOCCache.set_akkt_tolerance]
  norm_num [escM1, norm2_squared_diff]

/-- Evaluation: the first witness step does not terminate. -/
theorem escM1_noexit : ¬ is_exit_criterion_satisfied escOpt escM1 := by
  simp only [is_exit_criterion_satisfied, escM1, escOpt, AlmOptimizer.new, not_and]
  norm_num [DEFAULT_DELTA_TOLERANCE]

/-- Evaluation: no stall in the first witness step. -/
theorem escM1_nostall : ¬ is_penalty_stall_criterion escOpt escM1 := by
  simp only [is_penalty_stall_criterion, escM1, escOpt, AlmOptimizer.new, not_or]
  norm_num [DEFAULT_INFEAS_SUFFICIENT_DECREASE_FACTOR]

/-- Evaluation: conclusion of the first witness step (`c ← 5`). -/
theorem escM1_conclude : step_conclude escOpt escM1 [0] = (true, escS1, [0]) := by
  simp only [step_conclude]
  rw [if_neg escM1_noexit, if_neg escM1_nostall]
  simp only [update_penalty, update_inner_akkt_tolerance, final_cache_update,
    PANOCCache.set_akkt_tolerance, PANOCCache.reset, escM1, escOpt, AlmOptimizer.new,
    escCache, escS1, tolAfter1]
  norm_num [DEFAULT_PENALTY_UPDATE_FACTOR]

/-- Evaluation: the measured mid-state of the second witness step. -/
theorem escM2_measure : step_measure { escOpt with alm_cache := escS1 } [0]
    = Except.ok (escM2, [0]) := by
  simp only [step_measure, escOpt, AlmOptimizer.new, escCache, escS1, probC6, innerId,
    project_on_set_y, solve_inner_problem, update_lagrange_multipliers,
    compute_pm_infeasibility, compute_alm_infeasibility, PANOCCache.set_akkt_tolerance]
  norm_num [escM2, norm2_squared_diff, tolAfter1]

/-- Evaluation: the second witness step does not terminate. -/
theorem escM2_noexit : ¬ is_exit_criterion_satisfied escOpt escM2 := by
  simp only [is_exit_criterion_satisfied, escM2, escOpt, AlmOptimizer.new, not_and]
  norm_num [DEFAULT_DELTA_TOLERANCE]

/-- Evaluation: no stall in the second witness step. -/
theorem escM2_nostall : ¬ is_penalty_stall_criterion escOpt escM2 := by
  simp only [is_penalty_stall_criterion, escM2, escOpt, AlmOptimizer.new, not_or]
  norm_num [DEFAULT_INFEAS_SUFFICIENT_DECREASE_FACTOR]

/-- Witness for C6 on `escOpt` (entering `c = 1`, iteration 1, `ρ = 5`):
after two successive non-stalling, non-terminating steps the penalty is
`1·ρ² = 25`. -/
theorem alm_penalty_escalation_witness :
    (step_conclude escOpt escM2 [0]).1 = true ∧
    ∃ y2, ((step_conclude escOpt escM2 [0]).2.1).xi
        = some (1 * escOpt.penalty_update_factor * escOpt.penalty_update_factor :: y2) := by
  have h2 : step_measure { escOpt with alm_cache := (step_conclude escOpt escM1 [0]).2.1 } [0]
      = Except.ok (escM2, [0]) := by
    rw [show (step_conclude escOpt escM1 [0]).2.1 = escS1 by rw [escM1_conclude]]
    exact escM2_measure
  have h := alm_penalty_escalation escOpt [0] [0] [0] escM1 escM2 1 [1]
    escM1_measure rfl (by simp [escM1])
    (by simp only [escM1, escOpt, AlmOptimizer.new]
        norm_num [DEFAULT_INFEAS_SUFFICIENT_DECREASE_FACTOR])
    (by simp only [escM1, escOpt, AlmOptimizer.new]
        norm_num [DEFAULT_INFEAS_SUFFICIENT_DECREASE_FACTOR])
    escM1_noexit h2 (by simp [escM2])
    (by simp only [escM2, escOpt, AlmOptimizer.new]
        norm_num [DEFAULT_INFEAS_SUFFICIENT_DECREASE_FACTOR])
    (by simp only [escM2, escOpt, AlmOptimizer.new]
        norm_num [DEFAULT_INFEAS_SUFFICIENT_DECREASE_FACTOR])
    escM2_noexit
  exact ⟨h.2.2.2.1, h.2.2.2.2⟩

/-- Evaluation: the measured mid-state of the program's first step. -/
theorem cexM1_measure : step_measure optC6 [0] = Except.ok (cexM1, [0]) := by
  simp only [step_measure, optC6, AlmOptimizer.new, cacheC6, probC6, innerId,
    project_on_set_y, solve_inner_problem, update_lagrange_multipliers,
    compute_pm_infeasibility, compute_alm_infeasibility, PANOCCache.set_akkt_tolerance]
  norm_num [cexM1, norm2_squared_diff]

/-- Evaluation: the program's first step does not terminate. -/
theorem cexM1_noexit : ¬ is_exit_criterion_satisfied optC6 cexM1 := by
  simp only [is_exit_criterion_satisfied, cexM1, optC6, AlmOptimizer.new, not_and]
  norm_num [DEFAULT_DELTA_TOLERANCE]

/-- Evaluation: the stall criterion fires at iteration 0. -/
theorem cexM1_stall : is_penalty_stall_criterion optC6 cexM1 := Or.inl rfl

/-- Evaluation: conclusion of the program's first step (`c` unchanged). -/
theorem cexM1_conclude : step_conclude optC6 cexM1 [0] = (true, cexS1, [0]) := by
  simp only [step_conclude]
  rw [if_neg cexM1_noexit, if_pos cexM1_stall]
  simp only [update_inner_akkt_tolerance, final_cache_update,
    PANOCCache.set_akkt_tolerance, PANOCCache.reset, cexM1, optC6, AlmOptimizer.new,
    cacheC6, cexS1, tolAfter1]

/-- Evaluation: the measured mid-state of the program's second step. -/
theorem cexM2_measure : step_measure cexOptS1 [0] = Except.ok (cexM2, [0]) := by
  simp only [step_measure, cexOptS1, optC6, AlmOptimizer.new, cacheC6, cexS1, probC6,
    innerId, project_on_set_y, solve_inner_problem, update_lagrange_multipliers,
    compute_pm_infeasibility, compute_alm_infeasibility, PANOCCache.set_akkt_tolerance]
  norm_num [cexM2, norm2_squared_diff, tolAfter1]

/-- Evaluation: the program's second step does not terminate. -/
theorem cexM2_noexit : ¬ is_exit_criterion_satisfied cexOptS1 cexM2 := by
  simp only [is_exit_criterion_satisfied, cexM2, cexOptS1, optC6, AlmOptimizer.new,
    not_and]
  norm_num [DEFAULT_DELTA_TOLERANCE]

/-- Evaluation: no stall in the program's second step. -/
theorem cexM2_nostall : ¬ is_penalty_stall_criterion cexOptS1 cexM2 := by
  simp only [is_penalty_stall_criterion, cexM2, cexOptS1, optC6, AlmOptimizer.new,
    not_or]
  norm_num [DEFAULT_INFEAS_SUFFICIENT_DECREASE_FACTOR]

/-- Evaluation: conclusion of the program's second step (`c ← 5`). -/
theorem cexM2_conclude : step_conclude cexOptS1 cexM2 [0] = (true, cexS2, [0]) := by
  simp only [step_conclude]
  rw [if_neg cexM2_noexit, if_neg cexM2_nostall]
  simp only [update_penalty, update_inner_akkt_tolerance, final_cache_update,
    PANOCCache.set_akkt_tolerance, PANOCCache.reset, cexM2, cexOptS1, optC6,
    AlmOptimizer.new, cacheC6, cexS2, tolAfter1, tolAfter2]
  norm_num [DEFAULT_PENALTY_UPDATE_FACTOR]

/-- Counterexample for C6 as stated: starting from the fresh `optC6`
(`c₀ = 1`, `ρ = 5`), the program's first two steps both measure no sufficient
decrease of either infeasibility and both continue, yet the penalty after the
second step is `5`, not `ρ²·c₀ = 25` — the first step held `c` because the
stall criterion fires at iteration 0. -/
theorem alm_penalty_escalation_cex :
    step_measure optC6 [0] = Except.ok (cexM1, [0]) ∧
    ¬ cexM1.delta_y_norm_plus < optC6.sufficient_decrease_coeff * cexM1.delta_y_norm ∧
    ¬ cexM1.f2_norm_plus < optC6.sufficient_decrease_coeff * cexM1.f2_norm ∧
    step_conclude optC6 cexM1 [0] = (true, cexS1, [0]) ∧
    step_measure cexOptS1 [0] = Except.ok (cexM2, [0]) ∧
    ¬ cexM2.delta_y_norm_plus < cexOptS1.sufficient_decrease_coeff * cexM2.delta_y_norm ∧
    ¬ cexM2.f2_norm_plus < cexOptS1.sufficient_decrease_coeff * cexM2.f2_norm ∧
    step_conclude cexOptS1 cexM2 [0] = (true, cexS2, [0]) ∧
    optC6.alm_cache.xi = some [1, 1] ∧
    cexS2.xi = some [5, 1] ∧
    (5 : ℝ) ≠ optC6.penalty_update_factor * optC6.penalty_update_factor * 1 := by
  refine ⟨cexM1_measure, ?_, ?_, cexM1_conclude, cexM2_measure, ?_, ?_,
    cexM2_conclude, rfl, rfl, ?_⟩
  · simp only [cexM1, optC6, AlmOptimizer.new]
    norm_num [DEFAULT_INFEAS_SUFFICIENT_DECREASE_FACTOR]
  · simp only [cexM1, optC6, AlmOptimizer.new]
    norm_num [DEFAULT_INFEAS_SUFFICIENT_DECREASE_FACTOR]
  · simp only [cexM2, cexOptS1, optC6, AlmOptimizer.new]
    norm_num [DEFAULT_INFEAS_SUFFICIENT_DECREASE_FACTOR]
  · simp only [cexM2, cexOptS1, optC6, AlmOptimizer.new]
    norm_num [DEFAULT_INFEAS_SUFFICIENT_DECREASE_FACTOR]
  · simp only [optC6, AlmOptimizer.new]
    norm_num [DEFAULT_PENALTY_UPDATE_FACTOR]

end OpEn
